import Mathlib

/-!
Verification of the anim4dc vertex-animation plugin (include/anim4dc.h).

Shallow embedding conventions:
  * C `float` values are modelled as exact rationals (`ℚ`); comparisons and
    arithmetic are the source expressions read over `ℚ`.
  * C pointers that may be NULL are modelled as `Option` (a `some` buffer is
    an allocated buffer holding its contents); buffers of 3D vertex data are
    flattened `List ℚ` of length `vertexCount * 3`.
  * Counts that index real collections (meshes, bones, keyframes) are `ℕ`;
    the user-supplied `animationCount` argument is a C `int`, modelled `ℤ`.
  * The global singleton `anim4dc` state is passed explicitly: a C function
    mutating it becomes a Lean function from the state to the new state.
  * The external skeletal evaluator (`UpdateModelAnimation` followed by a
    read of `meshes[0].animVertices`) is an oracle `eval : ℕ → List ℚ`
    giving the animated vertex data at a frame index.
-/

namespace Anim4dc

/-- Squared-distance LOD thresholds from the header macros. -/
def ANIM4DC_LOD_NEAR_DIST2 : ℚ := 80 * 80

def ANIM4DC_LOD_MID_DIST2 : ℚ := 120 * 120

def ANIM4DC_LOD_FAR_DIST2 : ℚ := 160 * 160

def ANIM4DC_LOD_CULL_DIST2 : ℚ := 200 * 200

def ANIM4DC_MAX_KEYFRAMES : ℕ := 20

def ANIM4DC_MAX_ANIMATIONS : ℕ := 8

/-- The `Anim4dcLodLevel` enumeration. -/
inductive Anim4dcLodLevel where
  | NEAR
  | MID
  | FAR
  | FROZEN
  | CULLED
deriving DecidableEq, Repr, Inhabited

/-- raylib `Vector3`, over exact rationals. -/
structure Vector3 where
  x : ℚ
  y : ℚ
  z : ℚ
deriving DecidableEq, Repr, Inhabited

/-- raymath `Vector3Subtract`. -/
def Vector3Subtract (a b : Vector3) : Vector3 :=
  ⟨a.x - b.x, a.y - b.y, a.z - b.z⟩

/-- raymath `Vector3LengthSqr`. -/
def Vector3LengthSqr (v : Vector3) : ℚ :=
  v.x * v.x + v.y * v.y + v.z * v.z

/-- `Anim4dcModelInstance`. -/
structure Anim4dcModelInstance where
  position : Vector3
  rotation : Vector3
  scale : ℚ
  animationIndex : ℤ
  animationTime : ℚ
  lodLevel : Anim4dcLodLevel
  visible : Bool
  distanceSquared : ℚ
deriving DecidableEq, Repr, Inhabited

/-- `Anim4dcStats`. -/
structure Anim4dcStats where
  visibleInstances : ℕ
  culledInstances : ℕ
  animationUpdates : ℕ
  averageFPS : ℚ
  memoryUsageKB : ℕ
deriving DecidableEq, Repr, Inhabited

/-- Body of the per-instance loop of `Anim4dcUpdateInstanceLOD`: computes the
squared camera distance and assigns LOD tier and visibility. -/
def classifyInstance (cameraPosition : Vector3) (instance_ : Anim4dcModelInstance) :
    Anim4dcModelInstance :=
  let diff := Vector3Subtract instance_.position cameraPosition
  let d2 := Vector3LengthSqr diff
  if d2 > ANIM4DC_LOD_CULL_DIST2 then
    { instance_ with distanceSquared := d2, lodLevel := .CULLED, visible := false }
  else if d2 > ANIM4DC_LOD_FAR_DIST2 then
    { instance_ with distanceSquared := d2, lodLevel := .FAR, visible := true }
  else if d2 > ANIM4DC_LOD_MID_DIST2 then
    { instance_ with distanceSquared := d2, lodLevel := .MID, visible := true }
  else
    { instance_ with distanceSquared := d2, lodLevel := .NEAR, visible := true }

/-- The `for` loop of `Anim4dcUpdateInstanceLOD` over the remaining instances:
classifies each one and increments the matching tally of the stats. -/
def updateInstanceLODLoop (cameraPosition : Vector3) :
    List Anim4dcModelInstance → Anim4dcStats →
    List Anim4dcModelInstance × Anim4dcStats
  | [], s => ([], s)
  | instance_ :: rest, s =>
    let inst2 := classifyInstance cameraPosition instance_
    let s2 := if inst2.visible then
        { s with visibleInstances := s.visibleInstances + 1 }
      else
        { s with culledInstances := s.culledInstances + 1 }
    let (rest2, s3) := updateInstanceLODLoop cameraPosition rest s2
    (inst2 :: rest2, s3)

/-- `Anim4dcUpdateInstanceLOD`: resets the visible/culled tallies of the stats
and classifies every instance in order, incrementing one tally per instance.
Returns the updated instance array together with the updated stats. -/
def Anim4dcUpdateInstanceLOD (instances : List Anim4dcModelInstance)
    (cameraPosition : Vector3) (stats : Anim4dcStats) :
    List Anim4dcModelInstance × Anim4dcStats :=
  updateInstanceLODLoop cameraPosition instances
    { stats with visibleInstances := 0, culledInstances := 0 }

/-- `Anim4dcVertexKeyframe`: an optionally-allocated flattened vertex buffer
(`vertexCount * 3` scalars when allocated), its vertex count, and a timestamp
in seconds. -/
structure Anim4dcVertexKeyframe where
  vertices : Option (List ℚ)
  vertexCount : ℕ
  timestamp : ℚ
deriving DecidableEq, Repr

instance : Inhabited Anim4dcVertexKeyframe := ⟨⟨none, 0, 0⟩⟩

/-- `Anim4dcVertexAnimation`: the keyframe list stands for the first
`keyframeCount` slots of the fixed keyframe array. -/
structure Anim4dcVertexAnimation where
  name : String
  keyframes : List Anim4dcVertexKeyframe
  duration : ℚ
  looping : Bool
deriving DecidableEq, Repr

instance : Inhabited Anim4dcVertexAnimation := ⟨⟨"", [], 0, false⟩⟩

/-- `Anim4dcAnimationSystem`: the global `anim4dc` state.  The animation list
stands for the first `animationCount` slots of the fixed animation array. -/
structure Anim4dcAnimationSystem where
  animations : List Anim4dcVertexAnimation
  currentAnimation : ℤ
  currentTime : ℚ
  interpolationBuffer : Option (List ℚ)
  vertexCount : ℕ
  initialized : Bool
deriving DecidableEq, Repr

/-- The all-zero state produced by `memset(&anim4dc, 0, ...)`. -/
def zeroSystem : Anim4dcAnimationSystem :=
  { animations := []
    currentAnimation := 0
    currentTime := 0
    interpolationBuffer := none
    vertexCount := 0
    initialized := false }

instance : Inhabited Anim4dcAnimationSystem := ⟨zeroSystem⟩

/-- `Anim4dcInit`: zeroes the state, marks it initialized with no current
animation, and returns true. -/
def Anim4dcInit : Bool × Anim4dcAnimationSystem :=
  (true, { zeroSystem with currentAnimation := -1, initialized := true })

/-- `Anim4dcShutdown`: a no-op when not initialized; otherwise frees every
keyframe buffer and the interpolation buffer and zeroes the state. -/
def Anim4dcShutdown (st : Anim4dcAnimationSystem) : Anim4dcAnimationSystem :=
  if !st.initialized then st else zeroSystem

/-- `Anim4dcInterpolateVertices`: componentwise linear interpolation of the
first `vertexCount * 3` scalars of the two buffers. -/
def Anim4dcInterpolateVertices (vertices1 vertices2 : List ℚ) (t : ℚ)
    (vertexCount : ℕ) : List ℚ :=
  (List.range (vertexCount * 3)).map
    (fun i => vertices1.getD i 0 + (vertices2.getD i 0 - vertices1.getD i 0) * t)

/-- `Anim4dcCaptureVertexKeyframe`: appends a keyframe holding a copy of the
first `vertexCount * 3` scalars of the vertex data, unless the per-clip
keyframe cap is already reached (the sample is silently dropped). -/
def Anim4dcCaptureVertexKeyframe (animation : Anim4dcVertexAnimation)
    (timestamp : ℚ) (vertexData : List ℚ) (vertexCount : ℕ) :
    Anim4dcVertexAnimation :=
  if animation.keyframes.length ≥ ANIM4DC_MAX_KEYFRAMES then animation
  else
    { animation with
        keyframes := animation.keyframes ++
          [{ vertices := some (vertexData.take (vertexCount * 3))
             vertexCount := vertexCount
             timestamp := timestamp }] }

/-- `Anim4dcGetInterpolatedVertices`: returns the interpolation buffer
pointer (possibly NULL). -/
def Anim4dcGetInterpolatedVertices (st : Anim4dcAnimationSystem) :
    Option (List ℚ) :=
  st.interpolationBuffer

/-- `Anim4dcSetAnimation`: fails when uninitialized or the index is out of
range; otherwise selects the clip and resets the clock. -/
def Anim4dcSetAnimation (st : Anim4dcAnimationSystem) (animationIndex : ℤ) :
    Bool × Anim4dcAnimationSystem :=
  if !st.initialized ∨ animationIndex < 0 ∨
      animationIndex ≥ (st.animations.length : ℤ) then
    (false, st)
  else
    (true, { st with currentAnimation := animationIndex, currentTime := 0 })

/-- The `for` loop of `Anim4dcSetAnimationByName`: the index of the first
clip whose name compares equal to the requested name, if any. -/
def setAnimationByNameLoop (animationName : String) :
    List Anim4dcVertexAnimation → Option ℕ
  | [] => none
  | a :: rest =>
    if a.name = animationName then some 0
    else (setAnimationByNameLoop animationName rest).map (· + 1)

/-- `Anim4dcSetAnimationByName`: fails when uninitialized or the name pointer
is NULL; otherwise selects the first clip whose name matches, failing when
none does. -/
def Anim4dcSetAnimationByName (st : Anim4dcAnimationSystem)
    (animationName : Option String) : Bool × Anim4dcAnimationSystem :=
  match animationName with
  | none => (false, st)
  | some nm =>
    if !st.initialized then (false, st)
    else
      match setAnimationByNameLoop nm st.animations with
      | some i => Anim4dcSetAnimation st (i : ℤ)
      | none => (false, st)

/-- `Anim4dcCalculateMemoryUsage`: bytes held by every allocated keyframe
buffer plus the interpolation buffer when allocated, integer-divided by 1024
(the function returns kilobytes). -/
def Anim4dcCalculateMemoryUsage (st : Anim4dcAnimationSystem) : ℕ :=
  let keyframeBytes :=
    (st.animations.map (fun a =>
      (a.keyframes.map (fun k =>
        if k.vertices.isSome then k.vertexCount * 3 * 4 else 0)).sum)).sum
  let totalMemory := keyframeBytes +
    (if st.interpolationBuffer.isSome then st.vertexCount * 3 * 4 else 0)
  totalMemory / 1024

/-- The fields of a raylib `Mesh` read by this plugin: the vertex count and
the presence (non-NULL) of the skinning attribute buffers. -/
structure Mesh where
  vertexCount : ℕ
  boneIds : Bool
  boneWeights : Bool
  animVertices : Bool
deriving DecidableEq, Repr

instance : Inhabited Mesh := ⟨⟨0, false, false, false⟩⟩

/-- The fields of a raylib `Model` read by this plugin; `meshCount` is the
length of the mesh list, and `bones`/`bindPose` record pointer presence. -/
structure Model where
  meshes : List Mesh
  boneCount : ℕ
  bones : Bool
  bindPose : Bool
deriving DecidableEq, Repr

instance : Inhabited Model := ⟨⟨[], 0, false, false⟩⟩

/-- The fields of a raylib `ModelAnimation` read by this plugin;
`bones`/`framePoses` record pointer presence. -/
structure ModelAnimation where
  boneCount : ℕ
  frameCount : ℤ
  bones : Bool
  framePoses : Bool
deriving DecidableEq, Repr

instance : Inhabited ModelAnimation := ⟨⟨0, 0, false, false⟩⟩

/-- `Anim4dcCheckModelCompatibility`. -/
def Anim4dcCheckModelCompatibility (model : Model)
    (animations : List ModelAnimation) (animationCount : ℤ) : Bool :=
  if model.meshes.length ≤ 0 then false
  else if animationCount ≤ 0 then false
  else if model.boneCount ≤ 0 then false
  else if !model.bones ∨ !model.bindPose then false
  else
    let anim := animations.getD 0 default
    if anim.boneCount ≠ model.boneCount then false
    else if !anim.bones ∨ !anim.framePoses then false
    else if !(model.meshes.any
        (fun mesh => mesh.boneIds && mesh.boneWeights && mesh.animVertices)) then
      false
    else true

/-- The default animation name pool of `Anim4dcBakeVertexAnimations`. -/
def animNames : List String :=
  ["Survey", "Walk", "Run", "Jump", "Idle", "Attack", "Death", "Custom"]

/-- The per-clip body of the baking loop: sets up name, duration and loop
flag, then samples every `keyframeStep`-th frame below `frameCount`
(the `for` loop visits exactly the frames `0, step, 2*step, ...` below the
frame count), capturing a keyframe for each sampled frame when the first
mesh has an animated-vertex buffer.  `eval` is the external skeletal
evaluator giving the animated vertex data at a frame. -/
def bakeOneClip (skelAnim : ModelAnimation) (a : ℕ) (mesh0AnimVertices : Bool)
    (vertexCount : ℕ) (eval : ℕ → List ℚ) : Anim4dcVertexAnimation :=
  let keyframeStep : ℕ := if skelAnim.frameCount > 40 then 8 else 4
  let frames : List ℕ :=
    (List.range ((skelAnim.frameCount.toNat + keyframeStep - 1) / keyframeStep)).map
      (fun k => k * keyframeStep)
  let init : Anim4dcVertexAnimation :=
    { name := if a < 8 then animNames.getD a "Unknown" else "Unknown"
      keyframes := []
      duration := (skelAnim.frameCount : ℚ) / 20
      looping := true }
  frames.foldl
    (fun vertAnim (frame : ℕ) =>
      if mesh0AnimVertices then
        Anim4dcCaptureVertexKeyframe vertAnim ((frame : ℚ) / 20) (eval frame)
          vertexCount
      else vertAnim)
    init

/-- `Anim4dcBakeVertexAnimations`: fails (without touching the state) when
the system is uninitialized or the compatibility check fails; otherwise
bakes up to the clip cap, records the first mesh's vertex count, allocates
the interpolation buffer (allocation is modelled as always succeeding) and
selects clip 0 at clock 0.  `eval a frame` is the external skeletal
evaluator for source clip `a` at `frame`. -/
def Anim4dcBakeVertexAnimations (st : Anim4dcAnimationSystem) (model : Model)
    (animations : List ModelAnimation) (animationCount : ℤ)
    (eval : ℕ → ℕ → List ℚ) : Bool × Anim4dcAnimationSystem :=
  if !st.initialized then (false, st)
  else if !Anim4dcCheckModelCompatibility model animations animationCount then
    (false, st)
  else
    let animsToBake : ℕ :=
      if animationCount > (ANIM4DC_MAX_ANIMATIONS : ℤ) then ANIM4DC_MAX_ANIMATIONS
      else animationCount.toNat
    let vc := (model.meshes.getD 0 default).vertexCount
    let mesh0AnimVertices := (model.meshes.getD 0 default).animVertices
    let baked := (List.range animsToBake).map
      (fun a => bakeOneClip (animations.getD a default) a mesh0AnimVertices vc
        (eval a))
    (true,
      { st with
          animations := baked
          vertexCount := vc
          interpolationBuffer := some (List.replicate (vc * 3) 0)
          currentAnimation := 0
          currentTime := 0 })

/-- The keyframe-bracketing scan of `Anim4dcUpdateAnimation`: the index of
the first adjacent timestamp pair `(i, i+1)` with
`timestamp[i] ≤ time < timestamp[i+1]`, if any. -/
def scanKeyframes (time : ℚ) : List ℚ → Option ℕ
  | t1 :: t2 :: rest =>
    if t1 ≤ time ∧ time < t2 then some 0
    else (scanKeyframes time (t2 :: rest)).map (· + 1)
  | _ => none

/-- Keyframe bracket selection of `Anim4dcUpdateAnimation`: the scan result
(defaulting to `(0, 1)`), overridden to `(lastIndex, 0)` when the time has
reached or passed the last timestamp. -/
def findBracket (time : ℚ) (timestamps : List ℚ) : ℕ × ℕ :=
  let scanned :=
    match scanKeyframes time timestamps with
    | some i => (i, i + 1)
    | none => (0, 1)
  if time ≥ timestamps.getLastD 0 then (timestamps.length - 1, 0) else scanned

/-- The clamp of the interpolation factor into `[0, 1]`. -/
def clamp01 (t : ℚ) : ℚ :=
  if t < 0 then 0 else if t > 1 then 1 else t

/-- `Anim4dcUpdateAnimation`: a no-op when uninitialized, no valid clip is
selected, the selected clip has fewer than 2 keyframes, or the interpolation
buffer is unallocated.  Otherwise advances the clock (hard reset to 0 at or
past the duration), brackets the keyframes, computes the guarded and clamped
interpolation factor, and overwrites the interpolation buffer. -/
def Anim4dcUpdateAnimation (st : Anim4dcAnimationSystem) (deltaTime : ℚ) :
    Anim4dcAnimationSystem :=
  if !st.initialized ∨ st.currentAnimation < 0 ∨
      st.currentAnimation ≥ (st.animations.length : ℤ) then st
  else
    let currentAnim := st.animations.getD st.currentAnimation.toNat default
    if currentAnim.keyframes.length < 2 ∨ st.interpolationBuffer.isNone then st
    else
      let time0 := st.currentTime + deltaTime
      let time := if time0 ≥ currentAnim.duration then 0 else time0
      let timestamps := currentAnim.keyframes.map (fun k => k.timestamp)
      let bracket := findBracket time timestamps
      let currentKeyframe := bracket.1
      let nextKeyframe := bracket.2
      let t1 := (currentAnim.keyframes.getD currentKeyframe default).timestamp
      let t2 := if nextKeyframe = 0 then currentAnim.duration
        else (currentAnim.keyframes.getD nextKeyframe default).timestamp
      let t := if nextKeyframe = 0 then
          (if currentAnim.duration - t1 > 0 then
            (time - t1) / (currentAnim.duration - t1) else 0)
        else
          (if t2 - t1 > 0 then (time - t1) / (t2 - t1) else 0)
      let tClamped := clamp01 t
      let output := Anim4dcInterpolateVertices
        ((currentAnim.keyframes.getD currentKeyframe default).vertices.getD [])
        ((currentAnim.keyframes.getD nextKeyframe default).vertices.getD [])
        tClamped st.vertexCount
      { st with currentTime := time, interpolationBuffer := some output }

/-! ### Concrete example values used by witnesses and counterexamples -/

/-- An instance with a given position and neutral remaining fields. -/
def mkInstance (p : Vector3) : Anim4dcModelInstance :=
  { position := p, rotation := ⟨0, 0, 0⟩, scale := 1, animationIndex := -1,
    animationTime := 0, lodLevel := .NEAR, visible := true, distanceSquared := 0 }

/-- A two-keyframe example clip: vertices `[0,0,0]` at time 0 and `[2,2,2]`
at time 1, duration 2. -/
def exClip : Anim4dcVertexAnimation :=
  { name := "Survey"
    keyframes :=
      [{ vertices := some [0, 0, 0], vertexCount := 1, timestamp := 0 },
       { vertices := some [2, 2, 2], vertexCount := 1, timestamp := 1 }]
    duration := 2
    looping := true }

/-- An initialized playback state holding `exClip` with clip 0 selected and
an allocated interpolation buffer. -/
def exSystem : Anim4dcAnimationSystem :=
  { animations := [exClip], currentAnimation := 0, currentTime := 0,
    interpolationBuffer := some [9, 9, 9], vertexCount := 1,
    initialized := true }

/-! ### Helper lemmas -/

/-- Classifying one instance always yields visibility iff not culled, and
never yields the FROZEN tier. -/
theorem classifyInstance_visible_frozen (cameraPosition : Vector3)
    (instance_ : Anim4dcModelInstance) :
    ((classifyInstance cameraPosition instance_).visible = true ↔
      (classifyInstance cameraPosition instance_).lodLevel ≠ .CULLED) ∧
    (classifyInstance cameraPosition instance_).lodLevel ≠ .FROZEN := by
  unfold classifyInstance
  dsimp only
  split_ifs <;> simp

/-- The LOD loop classifies elementwise. -/
theorem updateInstanceLODLoop_fst (cameraPosition : Vector3)
    (instances : List Anim4dcModelInstance) (s : Anim4dcStats) :
    (updateInstanceLODLoop cameraPosition instances s).1 =
      instances.map (classifyInstance cameraPosition) := by
  induction instances generalizing s with
  | nil => rfl
  | cons a rest ih =>
    simp only [updateInstanceLODLoop, List.map_cons]
    rw [ih]

/-- The LOD loop adds exactly one to one of the two tallies per instance. -/
theorem updateInstanceLODLoop_counts (cameraPosition : Vector3)
    (instances : List Anim4dcModelInstance) (s : Anim4dcStats) :
    (updateInstanceLODLoop cameraPosition instances s).2.visibleInstances +
      (updateInstanceLODLoop cameraPosition instances s).2.culledInstances =
    s.visibleInstances + s.culledInstances + instances.length := by
  induction instances generalizing s with
  | nil => simp [updateInstanceLODLoop]
  | cons a rest ih =>
    simp only [updateInstanceLODLoop]
    split_ifs with h <;> rw [ih] <;> simp <;> omega

/-- The classified array of `Anim4dcUpdateInstanceLOD`, element by element. -/
theorem updateInstanceLOD_getD (instances : List Anim4dcModelInstance)
    (cameraPosition : Vector3) (stats : Anim4dcStats) (j : ℕ)
    (hj : j < instances.length) :
    (Anim4dcUpdateInstanceLOD instances cameraPosition stats).1.getD j default =
      classifyInstance cameraPosition (instances.getD j default) := by
  unfold Anim4dcUpdateInstanceLOD
  rw [updateInstanceLODLoop_fst]
  rw [List.getD_eq_getElem?_getD, List.getD_eq_getElem?_getD,
    List.getElem?_map]
  rw [List.getElem?_eq_getElem hj]
  simp

/-! ### Claims -/

/-- C10: after `Anim4dcUpdateInstanceLOD`, every instance is visible iff its
tier is not CULLED, no instance is FROZEN, and the visible and culled stats
tallies sum to the instance count. -/
theorem C10_lod_invariants (instances : List Anim4dcModelInstance)
    (cameraPosition : Vector3) (stats : Anim4dcStats) :
    (∀ inst ∈ (Anim4dcUpdateInstanceLOD instances cameraPosition stats).1,
      (inst.visible = true ↔ inst.lodLevel ≠ .CULLED) ∧
      inst.lodLevel ≠ .FROZEN) ∧
    (Anim4dcUpdateInstanceLOD instances cameraPosition stats).2.visibleInstances +
      (Anim4dcUpdateInstanceLOD instances cameraPosition stats).2.culledInstances =
      instances.length := by
  constructor
  · intro inst hmem
    unfold Anim4dcUpdateInstanceLOD at hmem
    rw [updateInstanceLODLoop_fst] at hmem
    obtain ⟨y, _, rfl⟩ := List.mem_map.mp hmem
    exact classifyInstance_visible_frozen cameraPosition y
  · unfold Anim4dcUpdateInstanceLOD
    rw [updateInstanceLODLoop_counts]
    simp

/-- Witness for C10 at a concrete two-instance call. -/
theorem C10_lod_invariants_witness :
    ((classifyInstance ⟨0, 0, 0⟩ (mkInstance ⟨300, 0, 0⟩)).visible = true ↔
      (classifyInstance ⟨0, 0, 0⟩ (mkInstance ⟨300, 0, 0⟩)).lodLevel ≠
        .CULLED) ∧
    (Anim4dcUpdateInstanceLOD [mkInstance ⟨10, 0, 0⟩, mkInstance ⟨300, 0, 0⟩]
      ⟨0, 0, 0⟩ default).2.visibleInstances +
    (Anim4dcUpdateInstanceLOD [mkInstance ⟨10, 0, 0⟩, mkInstance ⟨300, 0, 0⟩]
      ⟨0, 0, 0⟩ default).2.culledInstances = 2 := by
  have h := C10_lod_invariants [mkInstance ⟨10, 0, 0⟩, mkInstance ⟨300, 0, 0⟩]
    ⟨0, 0, 0⟩ default
  refine ⟨h.1 _ ?_ |>.1, h.2⟩
  unfold Anim4dcUpdateInstanceLOD
  rw [updateInstanceLODLoop_fst]
  simp

/-- C1 counterexample: at squared camera distance 6401 the code assigns tier
NEAR, not MID as the claim states (the classifier compares against the
MID/FAR/CULL thresholds only; the NEAR threshold 80² is never used). -/
theorem C1_counterexample :
    (((Anim4dcUpdateInstanceLOD [mkInstance ⟨80, 1, 0⟩] ⟨0, 0, 0⟩
        default).1.getD 0 default).distanceSquared = 6401) ∧
    ((Anim4dcUpdateInstanceLOD [mkInstance ⟨80, 1, 0⟩] ⟨0, 0, 0⟩
        default).1.getD 0 default).lodLevel = .NEAR ∧
    Anim4dcLodLevel.NEAR ≠ .MID := by
  rw [updateInstanceLOD_getD _ _ _ 0 (by simp)]
  refine ⟨?_, ?_, by simp⟩ <;>
    norm_num [classifyInstance, Vector3Subtract, Vector3LengthSqr, mkInstance,
      ANIM4DC_LOD_CULL_DIST2, ANIM4DC_LOD_FAR_DIST2, ANIM4DC_LOD_MID_DIST2]

/-- C1 amended: the tier bands of `Anim4dcUpdateInstanceLOD` are NEAR for
d2 ≤ 120², MID for 120² < d2 ≤ 160², FAR for 160² < d2 ≤ 200², and CULLED
with `visible = false` for d2 > 200². -/
theorem C1_amended_lod_bands (instances : List Anim4dcModelInstance)
    (cameraPosition : Vector3) (stats : Anim4dcStats) (j : ℕ)
    (hj : j < instances.length) :
    ((Anim4dcUpdateInstanceLOD instances cameraPosition stats).1.getD j
        default).distanceSquared =
      Vector3LengthSqr (Vector3Subtract (instances.getD j default).position
        cameraPosition) ∧
    (Vector3LengthSqr (Vector3Subtract (instances.getD j default).position
        cameraPosition) ≤ 120 * 120 →
      ((Anim4dcUpdateInstanceLOD instances cameraPosition stats).1.getD j
        default).lodLevel = .NEAR ∧
      ((Anim4dcUpdateInstanceLOD instances cameraPosition stats).1.getD j
        default).visible = true) ∧
    (120 * 120 < Vector3LengthSqr (Vector3Subtract
        (instances.getD j default).position cameraPosition) →
      Vector3LengthSqr (Vector3Subtract (instances.getD j default).position
        cameraPosition) ≤ 160 * 160 →
      ((Anim4dcUpdateInstanceLOD instances cameraPosition stats).1.getD j
        default).lodLevel = .MID ∧
      ((Anim4dcUpdateInstanceLOD instances cameraPosition stats).1.getD j
        default).visible = true) ∧
    (160 * 160 < Vector3LengthSqr (Vector3Subtract
        (instances.getD j default).position cameraPosition) →
      Vector3LengthSqr (Vector3Subtract (instances.getD j default).position
        cameraPosition) ≤ 200 * 200 →
      ((Anim4dcUpdateInstanceLOD instances cameraPosition stats).1.getD j
        default).lodLevel = .FAR ∧
      ((Anim4dcUpdateInstanceLOD instances cameraPosition stats).1.getD j
        default).visible = true) ∧
    (200 * 200 < Vector3LengthSqr (Vector3Subtract
        (instances.getD j default).position cameraPosition) →
      ((Anim4dcUpdateInstanceLOD instances cameraPosition stats).1.getD j
        default).lodLevel = .CULLED ∧
      ((Anim4dcUpdateInstanceLOD instances cameraPosition stats).1.getD j
        default).visible = false) := by
  rw [updateInstanceLOD_getD instances cameraPosition stats j hj]
  unfold classifyInstance
  dsimp only
  unfold ANIM4DC_LOD_CULL_DIST2 ANIM4DC_LOD_FAR_DIST2 ANIM4DC_LOD_MID_DIST2
  split_ifs with h1 h2 h3 <;>
    refine ⟨rfl, ?_, ?_, ?_, ?_⟩ <;> intros <;> simp_all <;> linarith

/-- Witness for C1 amended at a concrete instance with d2 = 14401. -/
theorem C1_amended_lod_bands_witness :
    ((Anim4dcUpdateInstanceLOD [mkInstance ⟨120, 1, 0⟩] ⟨0, 0, 0⟩
        default).1.getD 0 default).lodLevel = .MID ∧
    ((Anim4dcUpdateInstanceLOD [mkInstance ⟨120, 1, 0⟩] ⟨0, 0, 0⟩
        default).1.getD 0 default).visible = true := by
  have h := (C1_amended_lod_bands [mkInstance ⟨120, 1, 0⟩] ⟨0, 0, 0⟩
    default 0 (by simp)).2.2.1
  exact h
    (by norm_num [Vector3LengthSqr, Vector3Subtract, mkInstance])
    (by norm_num [Vector3LengthSqr, Vector3Subtract, mkInstance])

/-- With no interpolation buffer, the animation update returns before
touching any state. -/
theorem updateAnimation_no_buffer (st : Anim4dcAnimationSystem)
    (deltaTime : ℚ) (h : st.interpolationBuffer = none) :
    Anim4dcUpdateAnimation st deltaTime = st := by
  unfold Anim4dcUpdateAnimation
  split
  · rfl
  · simp [h]

/-- C9: whenever the interpolation buffer is unallocated, `Anim4dcUpdateAnimation`
leaves the whole state unchanged (including the clock, whatever clip is
selected) and `Anim4dcGetInterpolatedVertices` returns the null buffer. -/
theorem C9_no_buffer_no_op (st : Anim4dcAnimationSystem) (deltaTime : ℚ)
    (h : st.interpolationBuffer = none) :
    Anim4dcUpdateAnimation st deltaTime = st ∧
    Anim4dcGetInterpolatedVertices st = none := by
  refine ⟨updateAnimation_no_buffer st deltaTime h, ?_⟩
  simp [Anim4dcGetInterpolatedVertices, h]

/-- Witness for C9 at a concrete state with a selected two-keyframe clip. -/
theorem C9_no_buffer_no_op_witness :
    Anim4dcUpdateAnimation { exSystem with interpolationBuffer := none } 1 =
      { exSystem with interpolationBuffer := none } ∧
    Anim4dcGetInterpolatedVertices
      { exSystem with interpolationBuffer := none } = none :=
  C9_no_buffer_no_op { exSystem with interpolationBuffer := none } 1 rfl

/-- Sum of a map that is constant on the list's members. -/
theorem list_sum_map_const {α : Type} (l : List α) (f : α → ℕ) (c : ℕ)
    (h : ∀ x ∈ l, f x = c) : (l.map f).sum = l.length * c := by
  induction l with
  | nil => simp
  | cons a t ih =>
    rw [List.map_cons, List.sum_cons, h a (by simp),
      ih (fun x hx => h x (by simp [hx])), List.length_cons]
    ring

/-- C2 counterexample: on a state with 1 baked clip of 2 keyframes of 1
vertex and an allocated interpolation buffer, the claim's byte formula gives
`1*2*1*3*4 + 1*3*4 = 36`, but `Anim4dcCalculateMemoryUsage` returns
`36 / 1024 = 0` (the function returns kilobytes, not bytes). -/
theorem C2_counterexample :
    Anim4dcCalculateMemoryUsage exSystem = 0 ∧
    (0 : ℕ) ≠ 1 * 2 * 1 * 3 * 4 + 1 * 3 * 4 := by
  constructor
  · rfl
  · decide

/-- C2 amended: for N clips of K keyframes of V vertices each (all keyframe
buffers live) and an allocated interpolation buffer of V vertices, the
memory-usage computation returns `(N*K*V*3*4 + V*3*4) / 1024` kilobytes
(integer division), and after a shutdown it returns 0 (so a re-bake
producing the same shape yields the same value, with no double counting). -/
theorem C2_amended_memory_usage (st : Anim4dcAnimationSystem) (N K V : ℕ)
    (hinit : st.initialized = true)
    (hN : st.animations.length = N)
    (hK : ∀ a ∈ st.animations, a.keyframes.length = K)
    (hkf : ∀ a ∈ st.animations, ∀ k ∈ a.keyframes,
      k.vertexCount = V ∧ k.vertices.isSome = true)
    (hbuf : st.interpolationBuffer.isSome = true)
    (hvc : st.vertexCount = V) :
    Anim4dcCalculateMemoryUsage st = (N * K * V * 3 * 4 + V * 3 * 4) / 1024 ∧
    Anim4dcCalculateMemoryUsage (Anim4dcShutdown st) = 0 := by
  constructor
  · unfold Anim4dcCalculateMemoryUsage
    dsimp only
    have hinner : ∀ a ∈ st.animations,
        (a.keyframes.map (fun k =>
          if k.vertices.isSome then k.vertexCount * 3 * 4 else 0)).sum =
        K * (V * 3 * 4) := by
      intro a ha
      rw [list_sum_map_const a.keyframes _ (V * 3 * 4)
        (fun k hk => by
          obtain ⟨hv, hs⟩ := hkf a ha k hk
          rw [if_pos hs, hv]), hK a ha]
    rw [list_sum_map_const st.animations _ (K * (V * 3 * 4)) hinner, hN,
      if_pos hbuf, hvc]
    congr 1
    ring
  · have hsd : Anim4dcShutdown st = zeroSystem := by
      simp [Anim4dcShutdown, hinit]
    rw [hsd]
    rfl

/-- Witness for C2 amended at the concrete example state (N=1, K=2, V=1). -/
theorem C2_amended_memory_usage_witness :
    Anim4dcCalculateMemoryUsage exSystem =
      (1 * 2 * 1 * 3 * 4 + 1 * 3 * 4) / 1024 ∧
    Anim4dcCalculateMemoryUsage (Anim4dcShutdown exSystem) = 0 :=
  C2_amended_memory_usage exSystem 1 2 1 rfl rfl
    (by
      intro a ha
      simp only [exSystem, List.mem_singleton] at ha
      subst ha
      rfl)
    (by
      intro a ha k hk
      simp only [exSystem, List.mem_singleton] at ha
      subst ha
      simp only [exClip, List.mem_cons, List.not_mem_nil, or_false] at hk
      rcases hk with hk | hk <;> subst hk <;> exact ⟨rfl, rfl⟩)
    rfl rfl

/-- C4 counterexample: an initialized state with a selected two-keyframe
clip but no interpolation buffer satisfies the claim's premises, yet
`Anim4dcUpdateAnimation` with deltaTime 1 leaves the clock at 0 instead of
setting it to 0 + 1 (the update returns before the clock advance when the
buffer is unallocated). -/
theorem C4_counterexample :
    ({ exSystem with interpolationBuffer := none
      } : Anim4dcAnimationSystem).initialized = true ∧
    ({ exSystem with interpolationBuffer := none
      } : Anim4dcAnimationSystem).currentAnimation = 0 ∧
    2 ≤ (({ exSystem with interpolationBuffer := none
      } : Anim4dcAnimationSystem).animations.getD 0 default).keyframes.length ∧
    (Anim4dcUpdateAnimation { exSystem with interpolationBuffer := none }
      1).currentTime = 0 ∧
    (0 : ℚ) ≠ 0 + 1 := by
  refine ⟨rfl, rfl, by decide, ?_, by norm_num⟩
  rw [updateAnimation_no_buffer _ _ rfl]
  rfl

/-- C4 amended: for every initialized system with a selected clip of at
least 2 keyframes and an ALLOCATED interpolation buffer, the update sets
the clock to clock + deltaTime, hard-reset to exactly 0 when that sum
reaches or exceeds the clip duration (even when it overshoots by more than
a full duration). -/
theorem C4_amended_clock_wrap (st : Anim4dcAnimationSystem) (deltaTime : ℚ)
    (hinit : st.initialized = true)
    (hsel0 : 0 ≤ st.currentAnimation)
    (hsel1 : st.currentAnimation < (st.animations.length : ℤ))
    (h2 : 2 ≤ (st.animations.getD st.currentAnimation.toNat
      default).keyframes.length)
    (hbuf : st.interpolationBuffer.isSome = true) :
    (Anim4dcUpdateAnimation st deltaTime).currentTime =
      if st.currentTime + deltaTime ≥
          (st.animations.getD st.currentAnimation.toNat default).duration
        then 0 else st.currentTime + deltaTime := by
  unfold Anim4dcUpdateAnimation
  rw [if_neg (by simp [hinit]; omega)]
  dsimp only
  rw [if_neg (fun hcon => by
    rcases hcon with hlt | hnone
    · omega
    · rw [Option.isNone_iff_eq_none] at hnone
      rw [hnone] at hbuf
      simp at hbuf)]

/-- Witness for C4 amended at the example state with deltaTime 1/2. -/
theorem C4_amended_clock_wrap_witness :
    (Anim4dcUpdateAnimation exSystem (1 / 2)).currentTime =
      if exSystem.currentTime + 1 / 2 ≥
          (exSystem.animations.getD exSystem.currentAnimation.toNat
            default).duration
        then 0 else exSystem.currentTime + 1 / 2 :=
  C4_amended_clock_wrap exSystem (1 / 2) rfl (by decide) (by decide)
    (by decide) rfl

/-- The name-lookup loop finds nothing when no clip name matches. -/
theorem setAnimationByNameLoop_eq_none (nm : String)
    (l : List Anim4dcVertexAnimation) (h : ∀ a ∈ l, a.name ≠ nm) :
    setAnimationByNameLoop nm l = none := by
  induction l with
  | nil => rfl
  | cons a rest ih =>
    unfold setAnimationByNameLoop
    rw [if_neg (h a (by simp))]
    rw [ih (fun x hx => h x (by simp [hx]))]
    rfl

/-- The name-lookup loop returns the first matching index. -/
theorem setAnimationByNameLoop_eq_some (nm : String)
    (l : List Anim4dcVertexAnimation) (j : ℕ) (hj : j < l.length)
    (hname : (l.getD j default).name = nm)
    (hfirst : ∀ k, k < j → (l.getD k default).name ≠ nm) :
    setAnimationByNameLoop nm l = some j := by
  induction l generalizing j with
  | nil => simp at hj
  | cons a rest ih =>
    unfold setAnimationByNameLoop
    by_cases ha : a.name = nm
    · rw [if_pos ha]
      cases j with
      | zero => rfl
      | succ k => exact absurd ha (hfirst 0 (Nat.succ_pos k))
    · rw [if_neg ha]
      cases j with
      | zero => exact absurd hname ha
      | succ k =>
        rw [ih k (by simpa using hj) (by simpa using hname)
          (fun m hm => by simpa using hfirst (m + 1) (by omega))]
        rfl

/-- C7: clip selection by index or name fails (leaving the current clip and
the clock unchanged) when the index is out of range or the name matches no
clip, and on success selects the clip (the first match for name lookup) and
resets the clock to 0, returning true. -/
theorem C7_clip_selection (st : Anim4dcAnimationSystem) (i : ℤ) (nm : String)
    (hinit : st.initialized = true) :
    ((i < 0 ∨ (st.animations.length : ℤ) ≤ i) →
      Anim4dcSetAnimation st i = (false, st)) ∧
    (0 ≤ i → i < (st.animations.length : ℤ) →
      Anim4dcSetAnimation st i =
        (true, { st with currentAnimation := i, currentTime := 0 })) ∧
    ((∀ a ∈ st.animations, a.name ≠ nm) →
      Anim4dcSetAnimationByName st (some nm) = (false, st)) ∧
    (∀ j : ℕ, j < st.animations.length →
      (st.animations.getD j default).name = nm →
      (∀ k, k < j → (st.animations.getD k default).name ≠ nm) →
      Anim4dcSetAnimationByName st (some nm) =
        (true, { st with currentAnimation := (j : ℤ), currentTime := 0 })) := by
  refine ⟨?_, ?_, ?_, ?_⟩
  · intro h
    unfold Anim4dcSetAnimation
    rw [if_pos (by omega)]
  · intro h1 h2
    unfold Anim4dcSetAnimation
    rw [if_neg (by simp [hinit]; omega)]
  · intro h
    unfold Anim4dcSetAnimationByName
    dsimp only
    rw [if_neg (by simp [hinit])]
    rw [setAnimationByNameLoop_eq_none nm st.animations h]
  · intro j hj hname hfirst
    unfold Anim4dcSetAnimationByName
    dsimp only
    rw [if_neg (by simp [hinit])]
    rw [setAnimationByNameLoop_eq_some nm st.animations j hj hname hfirst]
    unfold Anim4dcSetAnimation
    dsimp only
    rw [if_neg (by simp [hinit]; omega)]

/-- Witness for C7: selecting clip 0 of the example state by index and the
clip named Survey by name both succeed and reset the clock. -/
theorem C7_clip_selection_witness :
    Anim4dcSetAnimation exSystem 0 =
      (true, { exSystem with currentAnimation := 0, currentTime := 0 }) ∧
    Anim4dcSetAnimationByName exSystem (some "Survey") =
      (true, { exSystem with currentAnimation := (0 : ℕ), currentTime := 0 }) := by
  have h := C7_clip_selection exSystem 0 "Survey" rfl
  exact ⟨h.2.1 (by decide) (by decide),
    h.2.2.2 0 (by decide) rfl (fun k hk => absurd hk (by omega))⟩

/-- C6: the compatibility check fails exactly on the claim's list of
structural defects, and whenever it fails the bake also fails and returns
the system state completely unchanged. -/
theorem C6_compatibility (model : Model) (animations : List ModelAnimation)
    (animationCount : ℤ) (st : Anim4dcAnimationSystem)
    (eval : ℕ → ℕ → List ℚ) :
    (Anim4dcCheckModelCompatibility model animations animationCount = false ↔
      model.meshes.length = 0 ∨
      animationCount ≤ 0 ∨
      model.boneCount = 0 ∨
      model.bones = false ∨
      model.bindPose = false ∨
      (animations.getD 0 default).boneCount ≠ model.boneCount ∨
      (animations.getD 0 default).bones = false ∨
      (animations.getD 0 default).framePoses = false ∨
      ∀ mesh ∈ model.meshes,
        ¬(mesh.boneIds = true ∧ mesh.boneWeights = true ∧
          mesh.animVertices = true)) ∧
    (Anim4dcCheckModelCompatibility model animations animationCount = false →
      Anim4dcBakeVertexAnimations st model animations animationCount eval =
        (false, st)) := by
  constructor
  · unfold Anim4dcCheckModelCompatibility
    dsimp only
    split_ifs with h1 h2 h3 h4 h5 h6 h7 <;>
      simp_all [List.any_eq_true, not_or] <;>
      first
      | omega
      | tauto
  · intro h
    unfold Anim4dcBakeVertexAnimations
    split
    · rfl
    · rw [if_pos (by simp [h])]

/-- Witness for C6: a model with 20 bones against an animation source with
15 bones fails the check, and baking it fails with the state untouched. -/
theorem C6_compatibility_witness :
    Anim4dcCheckModelCompatibility
      ⟨[⟨30, true, true, true⟩], 20, true, true⟩ [⟨15, 100, true, true⟩] 1 =
      false ∧
    Anim4dcBakeVertexAnimations exSystem
      ⟨[⟨30, true, true, true⟩], 20, true, true⟩ [⟨15, 100, true, true⟩] 1
      (fun _ _ => []) = (false, exSystem) := by
  have h := C6_compatibility ⟨[⟨30, true, true, true⟩], 20, true, true⟩
    [⟨15, 100, true, true⟩] 1 exSystem (fun _ _ => [])
  have hf : Anim4dcCheckModelCompatibility
      ⟨[⟨30, true, true, true⟩], 20, true, true⟩ [⟨15, 100, true, true⟩] 1 =
      false := h.1.mpr (by
    refine Or.inr (Or.inr (Or.inr (Or.inr (Or.inr (Or.inl ?_)))))
    decide)
  exact ⟨hf, h.2 hf⟩

/-- Reading every index of a list with `getD` reproduces the list. -/
theorem map_getD_range (l : List ℚ) :
    (List.range l.length).map (fun i => l.getD i 0) = l := by
  apply List.ext_getElem
  · simp
  · intro i h1 h2
    simp [List.getD_eq_getElem?_getD, List.getElem?_eq_getElem h2]

/-- C8: on full-length vertex buffers, interpolation at factor 0 returns the
earlier keyframe's buffer exactly, and at factor 1 the later one exactly. -/
theorem C8_interpolation_endpoints (vertices1 vertices2 : List ℚ)
    (vertexCount : ℕ) (h1 : vertices1.length = vertexCount * 3)
    (h2 : vertices2.length = vertexCount * 3) :
    Anim4dcInterpolateVertices vertices1 vertices2 0 vertexCount = vertices1 ∧
    Anim4dcInterpolateVertices vertices1 vertices2 1 vertexCount = vertices2 := by
  constructor
  · unfold Anim4dcInterpolateVertices
    have hbody : ∀ i : ℕ,
        vertices1.getD i 0 + (vertices2.getD i 0 - vertices1.getD i 0) * 0 =
        vertices1.getD i 0 := fun i => by ring
    simp only [hbody]
    rw [← h1]
    exact map_getD_range vertices1
  · unfold Anim4dcInterpolateVertices
    have hbody : ∀ i : ℕ,
        vertices1.getD i 0 + (vertices2.getD i 0 - vertices1.getD i 0) * 1 =
        vertices2.getD i 0 := fun i => by ring
    simp only [hbody]
    rw [← h2]
    exact map_getD_range vertices2

/-- Witness for C8 on concrete one-vertex buffers. -/
theorem C8_interpolation_endpoints_witness :
    Anim4dcInterpolateVertices [0, 1, 2] [3, 4, 5] 0 1 = [0, 1, 2] ∧
    Anim4dcInterpolateVertices [0, 1, 2] [3, 4, 5] 1 1 = [3, 4, 5] :=
  C8_interpolation_endpoints [0, 1, 2] [3, 4, 5] 1 rfl rfl

/-- Folding the keyframe capture over a frame list appends one keyframe per
frame until the per-clip cap is reached; later samples are dropped. -/
theorem captureFold_keyframes (eval : ℕ → List ℚ) (vc : ℕ) (frames : List ℕ)
    (vertAnim : Anim4dcVertexAnimation) :
    (frames.foldl (fun an (f : ℕ) =>
      Anim4dcCaptureVertexKeyframe an ((f : ℚ) / 20) (eval f) vc)
      vertAnim).keyframes =
    vertAnim.keyframes ++
      (frames.take (ANIM4DC_MAX_KEYFRAMES - vertAnim.keyframes.length)).map
        (fun f => { vertices := some ((eval f).take (vc * 3)),
                    vertexCount := vc, timestamp := (f : ℚ) / 20 }) := by
  induction frames generalizing vertAnim with
  | nil => simp
  | cons f rest ih =>
    rw [List.foldl_cons]
    by_cases hcap : vertAnim.keyframes.length ≥ ANIM4DC_MAX_KEYFRAMES
    · have hc : Anim4dcCaptureVertexKeyframe vertAnim ((f : ℚ) / 20) (eval f)
          vc = vertAnim := by
        unfold Anim4dcCaptureVertexKeyframe
        rw [if_pos hcap]
      rw [hc, ih vertAnim, Nat.sub_eq_zero_of_le hcap]
      simp
    · have hc : Anim4dcCaptureVertexKeyframe vertAnim ((f : ℚ) / 20) (eval f)
          vc =
          { vertAnim with keyframes := vertAnim.keyframes ++
              [{ vertices := some ((eval f).take (vc * 3)),
                 vertexCount := vc, timestamp := (f : ℚ) / 20 }] } := by
        unfold Anim4dcCaptureVertexKeyframe
        rw [if_neg hcap]
      rw [hc, ih]
      have hlen : ANIM4DC_MAX_KEYFRAMES - vertAnim.keyframes.length =
          (ANIM4DC_MAX_KEYFRAMES - (vertAnim.keyframes.length + 1)) + 1 := by
        unfold ANIM4DC_MAX_KEYFRAMES at hcap ⊢
        omega
      rw [hlen, List.take_succ_cons]
      simp

/-- The keyframe-capture fold never changes the clip's duration. -/
theorem captureFold_duration (eval : ℕ → List ℚ) (vc : ℕ) (frames : List ℕ)
    (vertAnim : Anim4dcVertexAnimation) :
    (frames.foldl (fun an (f : ℕ) =>
      Anim4dcCaptureVertexKeyframe an ((f : ℚ) / 20) (eval f) vc)
      vertAnim).duration = vertAnim.duration := by
  induction frames generalizing vertAnim with
  | nil => rfl
  | cons f rest ih =>
    rw [List.foldl_cons, ih]
    unfold Anim4dcCaptureVertexKeyframe
    split <;> rfl

/-- C5: baking a source clip with frame count F samples every 8th frame when
F > 40 and every 4th otherwise, captures the frames 0, step, 2*step, ...
below F up to the 20-keyframe cap with timestamps frame/20, assigns
duration F/20, and in particular F = 100 yields exactly 13 keyframes at
frames 0, 8, ..., 96. -/
theorem C5_bake_sampling (skelAnim : ModelAnimation) (a vc : ℕ)
    (eval : ℕ → List ℚ) (F : ℤ) (step : ℕ)
    (hF : skelAnim.frameCount = F)
    (hstep : step = if F > 40 then 8 else 4) :
    (bakeOneClip skelAnim a true vc eval).duration = (F : ℚ) / 20 ∧
    (bakeOneClip skelAnim a true vc eval).keyframes.map
        (fun k => k.timestamp) =
      (((List.range ((F.toNat + step - 1) / step)).map (fun k => k * step)).take
        ANIM4DC_MAX_KEYFRAMES).map (fun (f : ℕ) => (f : ℚ) / 20) ∧
    (F = 100 →
      (bakeOneClip skelAnim a true vc eval).keyframes.length = 13 ∧
      (bakeOneClip skelAnim a true vc eval).keyframes.map
          (fun k => k.timestamp) =
        (List.range 13).map (fun (k : ℕ) => ((k * 8 : ℕ) : ℚ) / 20)) := by
  have hmain :
      (bakeOneClip skelAnim a true vc eval).duration = (F : ℚ) / 20 ∧
      (bakeOneClip skelAnim a true vc eval).keyframes.map
          (fun k => k.timestamp) =
        (((List.range ((F.toNat + step - 1) / step)).map
          (fun k => k * step)).take ANIM4DC_MAX_KEYFRAMES).map
          (fun (f : ℕ) => (f : ℚ) / 20) := by
    unfold bakeOneClip
    dsimp only
    simp only [if_true]
    rw [hF, ← hstep]
    constructor
    · rw [captureFold_duration]
    · rw [captureFold_keyframes]
      simp only [List.nil_append, List.length_nil, Nat.sub_zero,
        List.map_take, List.map_map]
      rfl
  refine ⟨hmain.1, hmain.2, ?_⟩
  intro hF100
  subst hF100
  have hstep8 : step = 8 := by rw [hstep]; norm_num
  subst hstep8
  have htake : (((List.range (((100 : ℤ).toNat + 8 - 1) / 8)).map
      (fun k => k * 8)).take ANIM4DC_MAX_KEYFRAMES) =
      (List.range 13).map (fun k => k * 8) := by
    have h13 : ((100 : ℤ).toNat + 8 - 1) / 8 = 13 := by decide
    rw [h13]
    apply List.take_of_length_le
    simp [ANIM4DC_MAX_KEYFRAMES]
  constructor
  · have := congrArg List.length hmain.2
    simpa [htake] using this
  · rw [hmain.2, htake, List.map_map]
    rfl

/-- Witness for C5 at a concrete 100-frame source clip. -/
theorem C5_bake_sampling_witness :
    (bakeOneClip ⟨5, 100, true, true⟩ 0 true 1
      (fun _ => [0, 0, 0])).duration = (100 : ℚ) / 20 ∧
    (bakeOneClip ⟨5, 100, true, true⟩ 0 true 1
      (fun _ => [0, 0, 0])).keyframes.length = 13 := by
  have h := C5_bake_sampling ⟨5, 100, true, true⟩ 0 1 (fun _ => [0, 0, 0])
    100 8 rfl (by norm_num)
  exact ⟨h.1, (h.2.2 rfl).1⟩

/-- Reading a mapped timestamp list with `getD 0` agrees with projecting the
timestamp of the keyframe read with the default keyframe. -/
theorem getD_map_timestamp (kfs : List Anim4dcVertexKeyframe) (n : ℕ) :
    (kfs.map (fun k => k.timestamp)).getD n 0 =
      (kfs.getD n default).timestamp := by
  rw [List.getD_eq_getElem?_getD, List.getD_eq_getElem?_getD,
    List.getElem?_map]
  cases hx : kfs[n]? with
  | none => simp [hx]; rfl
  | some k => simp [hx]

/-- `getLastD` is `getD` at the last index. -/
theorem getLastD_eq_getD_pred (l : List ℚ) :
    l.getLastD 0 = l.getD (l.length - 1) 0 := by
  rw [List.getLastD_eq_getLast?, List.getLast?_eq_getElem?,
    List.getD_eq_getElem?_getD]

/-- `getD` is monotone on a sorted list (indices below the length). -/
theorem sorted_getD_mono (l : List ℚ) (h : l.Sorted (· ≤ ·)) (i j : ℕ)
    (hij : i ≤ j) (hj : j < l.length) : l.getD i 0 ≤ l.getD j 0 := by
  have hi := lt_of_le_of_lt hij hj
  rw [List.getD_eq_getElem?_getD l j, List.getElem?_eq_getElem hj]
  rw [List.getD_eq_getElem?_getD l i, List.getElem?_eq_getElem hi]
  simp only [Option.getD_some]
  have := List.Sorted.rel_get_of_le h
    (show (⟨i, hi⟩ : Fin l.length) ≤ ⟨j, hj⟩ from hij)
  simpa using this

/-- The bracketing scan returns the first adjacent pair around `time`. -/
theorem scanKeyframes_eq_some (time : ℚ) (ts : List ℚ) (i : ℕ)
    (hi : i + 1 < ts.length)
    (hle : ts.getD i 0 ≤ time) (hlt : time < ts.getD (i + 1) 0)
    (hfirst : ∀ j, j < i → ¬(ts.getD j 0 ≤ time ∧ time < ts.getD (j + 1) 0)) :
    scanKeyframes time ts = some i := by
  induction ts generalizing i with
  | nil => simp at hi
  | cons t1 rest ih =>
    cases rest with
    | nil => simp at hi
    | cons t2 rest2 =>
      unfold scanKeyframes
      cases i with
      | zero =>
        rw [if_pos ⟨by simpa using hle, by simpa using hlt⟩]
      | succ k =>
        rw [if_neg (by simpa using hfirst 0 (Nat.succ_pos k))]
        rw [ih k (by simpa using hi) (by simpa using hle)
          (by simpa using hlt)
          (fun j hj => by simpa using hfirst (j + 1) (by omega))]
        rfl

/-- C3: with a valid selection, at least 2 keyframes with non-decreasing
timestamps and an allocated buffer, the update brackets the post-advance
clock with the first keyframe pair (i, i+1) satisfying
timestamp[i] <= clock < timestamp[i+1], or with (lastIndex, 0) once the
clock reaches the last timestamp; the interpolation factor is
(clock - t_i) / (t_next - t_i) with denominator `duration - t_last` in the
loop-closing case, forced to 0 on a non-positive denominator, and clamped
into [0, 1] before interpolating into the buffer. -/
theorem C3_advance_bracketing (st : Anim4dcAnimationSystem) (deltaTime : ℚ)
    (A : Anim4dcVertexAnimation) (time : ℚ) (ts : List ℚ)
    (hinit : st.initialized = true)
    (hsel0 : 0 ≤ st.currentAnimation)
    (hsel1 : st.currentAnimation < (st.animations.length : ℤ))
    (hA : st.animations.getD st.currentAnimation.toNat default = A)
    (h2 : 2 ≤ A.keyframes.length)
    (hts : ts = A.keyframes.map (fun k => k.timestamp))
    (hmono : ts.Sorted (· ≤ ·))
    (hbuf : st.interpolationBuffer.isSome = true)
    (htime : time = if st.currentTime + deltaTime ≥ A.duration then 0
      else st.currentTime + deltaTime) :
    (ts.getLastD 0 ≤ time →
      Anim4dcUpdateAnimation st deltaTime = { st with
        currentTime := time,
        interpolationBuffer := some (Anim4dcInterpolateVertices
          ((A.keyframes.getD (A.keyframes.length - 1) default).vertices.getD [])
          ((A.keyframes.getD 0 default).vertices.getD [])
          (clamp01 (if A.duration - ts.getLastD 0 > 0 then
              (time - ts.getLastD 0) / (A.duration - ts.getLastD 0) else 0))
          st.vertexCount) }) ∧
    (∀ i : ℕ, i + 1 < A.keyframes.length →
      ts.getD i 0 ≤ time → time < ts.getD (i + 1) 0 →
      (∀ j, j < i → ¬(ts.getD j 0 ≤ time ∧ time < ts.getD (j + 1) 0)) →
      Anim4dcUpdateAnimation st deltaTime = { st with
        currentTime := time,
        interpolationBuffer := some (Anim4dcInterpolateVertices
          ((A.keyframes.getD i default).vertices.getD [])
          ((A.keyframes.getD (i + 1) default).vertices.getD [])
          (clamp01 (if ts.getD (i + 1) 0 - ts.getD i 0 > 0 then
              (time - ts.getD i 0) / (ts.getD (i + 1) 0 - ts.getD i 0) else 0))
          st.vertexCount) }) := by
  subst hts
  have hlen : (A.keyframes.map (fun k => k.timestamp)).length =
      A.keyframes.length := List.length_map _ _
  constructor
  · intro hlast
    have hfb : findBracket time (A.keyframes.map (fun k => k.timestamp)) =
        (A.keyframes.length - 1, 0) := by
      unfold findBracket
      dsimp only
      rw [if_pos hlast, hlen]
    unfold Anim4dcUpdateAnimation
    rw [if_neg (by simp [hinit]; omega)]
    dsimp only
    rw [hA]
    rw [if_neg (fun hcon => by
      rcases hcon with hlt | hnone
      · omega
      · rw [Option.isNone_iff_eq_none] at hnone
        rw [hnone] at hbuf
        simp at hbuf)]
    rw [← htime, hfb]
    dsimp only
    rw [if_pos rfl]
    rw [getLastD_eq_getD_pred, hlen, getD_map_timestamp]
  · intro i hi hle hlt hfirst
    have hlast_gt : time <
        (A.keyframes.map (fun k => k.timestamp)).getLastD 0 := by
      rw [getLastD_eq_getD_pred, hlen]
      calc time < (A.keyframes.map (fun k => k.timestamp)).getD (i + 1) 0 := hlt
        _ ≤ (A.keyframes.map (fun k => k.timestamp)).getD
            (A.keyframes.length - 1) 0 := by
          apply sorted_getD_mono _ hmono
          · omega
          · rw [hlen]; omega
    have hfb : findBracket time (A.keyframes.map (fun k => k.timestamp)) =
        (i, i + 1) := by
      unfold findBracket
      dsimp only
      rw [scanKeyframes_eq_some time _ i (by rw [hlen]; omega) hle hlt hfirst]
      rw [if_neg (not_le.mpr hlast_gt)]
    unfold Anim4dcUpdateAnimation
    rw [if_neg (by simp [hinit]; omega)]
    dsimp only
    rw [hA]
    rw [if_neg (fun hcon => by
      rcases hcon with hlt2 | hnone
      · omega
      · rw [Option.isNone_iff_eq_none] at hnone
        rw [hnone] at hbuf
        simp at hbuf)]
    rw [← htime, hfb]
    dsimp only
    rw [if_neg (Nat.succ_ne_zero i)]
    rw [if_neg (Nat.succ_ne_zero i)]
    rw [getD_map_timestamp, getD_map_timestamp]

/-- Witness for C3 at the example state: after advancing by 1/2 the bracket
is keyframes (0, 1) with factor 1/2, interpolating the buffer to [1,1,1]. -/
theorem C3_advance_bracketing_witness :
    Anim4dcUpdateAnimation exSystem (1 / 2) = { exSystem with
      currentTime := 1 / 2,
      interpolationBuffer := some [1, 1, 1] } := by
  have h := (C3_advance_bracketing exSystem (1 / 2) exClip (1 / 2) [0, 1]
    rfl (by decide) (by decide) rfl (by decide) rfl (by decide) rfl
    (by norm_num [exClip, exSystem])).2 0 (by decide)
    (by norm_num [List.getD]) (by norm_num [List.getD])
    (fun j hj => absurd hj (by omega))
  rw [h]
  simp only [exClip, exSystem, List.getD, clamp01, Anim4dcInterpolateVertices]
  norm_num [List.range_succ]

end Anim4dc
